import Mathlib

/-!
Shallow embedding of the zkSync-era validation tracer
(`core/lib/vm/src/oracles/tracer/validation.rs`) and proofs about it.

Machine integers (`u32`, `U256`, `H256`, 160-bit addresses) are embedded as
natural numbers; reductions modulo the relevant power of two are written
explicitly at the points where the Rust code converts between the types.
External collaborators (the keccak-256 hash, the per-instruction
computational gas price, the VM-hook classifier and the paged-memory read
accessor) are pure inputs of the tracer in the source; here they appear as
parameters of the step functions or as fields of the per-instruction
observation record `ExecData`.
-/

namespace ZkSync

/-- Account addresses (`Address`, 20 bytes), embedded as naturals. -/
abbrev Address := Nat

/-- Machine words (`U256`), embedded as naturals. -/
abbrev U256 := Nat

/-- Hash values (`H256`, 32 bytes), embedded as naturals. -/
abbrev H256 := Nat

/-- Modelled from the spec: the well-known system contract address constants
imported from `zksync_config::constants` (their concrete values are the
standard zkSync system-contract addresses; the tracer only compares
addresses against them). -/
def ACCOUNT_CODE_STORAGE_ADDRESS : Address := 0x8002

/-- The bootloader system contract address (`zksync_config::constants`). -/
def BOOTLOADER_ADDRESS : Address := 0x8001

/-- The contract-deployer system contract address. -/
def CONTRACT_DEPLOYER_ADDRESS : Address := 0x8006

/-- The keccak-256 precompile address. -/
def KECCAK256_PRECOMPILE_ADDRESS : Address := 0x8010

/-- The native (L2 ETH) token system contract address. -/
def L2_ETH_TOKEN_ADDRESS : Address := 0x800a

/-- The value-transfer (msg.value) simulator system contract address. -/
def MSG_VALUE_SIMULATOR_ADDRESS : Address := 0x8009

/-- The system-context contract address. -/
def SYSTEM_CONTEXT_ADDRESS : Address := 0x800b

/-- `zksync_utils::u256_to_h256`: a `U256` reinterpreted as a 32-byte hash. -/
def u256_to_h256 (x : U256) : H256 := x % 2 ^ 256

/-- `zksync_utils::u256_to_account_address`: the low 160 bits of a word,
reinterpreted as an address. -/
def u256_to_account_address (x : U256) : Address := x % 2 ^ 160

/-- `zksync_utils::h256_to_account_address`: the trailing 20 bytes of a
32-byte value, reinterpreted as an address. -/
def h256_to_account_address (x : H256) : Address := x % 2 ^ 160

/-- `zksync_utils::address_to_h256` as used by `zksync_types::get_code_key`:
an address left-padded with zero bytes into a 32-byte key. -/
def address_to_h256 (a : Address) : H256 := a % 2 ^ 160

/-- Big-endian interpretation of a byte list as a natural number
(`H256::from_slice`); each entry is reduced modulo 256. -/
def beBytesToNat (bs : List Nat) : Nat :=
  bs.foldl (fun acc b => acc * 256 + b % 256) 0

/-- Modelled from the spec: `zksync_utils::be_bytes_to_safe_address`
(not under `src/`) — the right-aligned "safe" decoding of a 32-byte
big-endian word into an address: the word decodes precisely when its
leading 12 bytes are zero, in which case the trailing 20 bytes are the
address; out-of-range bytes yield no address. -/
def be_bytes_to_safe_address (bs : List Nat) : Option Address :=
  if (bs.take 12).all (fun b => b % 256 == 0) then
    some (beBytesToNat (bs.drop 12))
  else
    none

/-- The `length` field of the quasi fat pointer packed in a far-call ABI
word (`FarCallABI::from_u256` / `FatPointer::from_u256`: bits 96..127 of
the descriptor). -/
def fatPointerLength (abi : U256) : Nat := abi / 2 ^ 96 % 2 ^ 32

/-- `u32::saturating_add` on the natural-number embedding of `u32`. -/
def saturatingAddU32 (a b : Nat) : Nat := min (a + b) (2 ^ 32 - 1)

/-- `ValidationTracerMode` from the source. -/
inductive ValidationTracerMode where
  | UserTxValidation
  | PaymasterTxValidation
  | NoValidation
deriving DecidableEq

/-- `ViolatedValidationRule` from the source. -/
inductive ViolatedValidationRule where
  | TouchedUnallowedStorageSlots (contract : Address) (key : U256)
  | CalledContractWithNoCode (contract : Address)
  | TouchedUnallowedContext
  | TookTooManyComputationalGas (gas_limit : Nat)
deriving DecidableEq

/-- `zkevm_opcode_defs::LogOpcode`, restricted to the distinction the
tracer makes (`StorageRead` versus every other log opcode). -/
inductive LogOpcode where
  | StorageRead
  | OtherLog
deriving DecidableEq

/-- `zkevm_opcode_defs::ContextOpcode`, restricted to the distinction the
tracer makes (`Meta`, `ErgsLeft`, anything else). -/
inductive ContextOpcode where
  | Meta
  | ErgsLeft
  | OtherContext
deriving DecidableEq

/-- `zkevm_opcode_defs::Opcode`, restricted to the variants the tracer
dispatches on. -/
inductive Opcode where
  | FarCall
  | Context (c : ContextOpcode)
  | Log (l : LogOpcode)
  | Other
deriving DecidableEq

/-- `VmHook` (produced by the external classifier
`VmHook::from_opcode_memory`), restricted to the variants the tracer
consumes; every other hook is `OtherHook`. The source spells the
step-ended variant `ValidationStepEndeded`. -/
inductive VmHook where
  | AccountValidationEntered
  | PaymasterValidationEntered
  | NoValidationEntered
  | ValidationStepEndeded
  | OtherHook
deriving DecidableEq

/-- `NewTrustedValidationItems` from the source. -/
structure NewTrustedValidationItems where
  new_allowed_slots : List H256 := []
  new_trusted_addresses : List Address := []
deriving DecidableEq

/-- `ValidationRoundResult` from the source:
`Result<NewTrustedValidationItems, ViolatedValidationRule>`. -/
abbrev ValidationRoundResult := Except ViolatedValidationRule NewTrustedValidationItems

/-- The tracer state (`ValidationTracer`).  The `StoragePtr` handle is
embedded as the read function it exposes (`get_value`, keyed by account
address and 32-byte slot); the tracer only ever reads through it. -/
structure ValidationTracer where
  storage : Address → H256 → H256
  validation_mode : ValidationTracerMode
  auxilary_allowed_slots : Finset H256
  validation_error : Option ViolatedValidationRule
  user_address : Address
  paymaster_address : Address
  should_stop_execution : Bool
  trusted_slots : Finset (Address × U256)
  trusted_addresses : Finset Address
  trusted_address_slots : Finset (Address × U256)
  computational_gas_used : Nat
  computational_gas_limit : Nat

/-- `ValidationTracerParams` from the source. -/
structure ValidationTracerParams where
  user_address : Address
  paymaster_address : Address
  trusted_slots : Finset (Address × U256)
  trusted_addresses : Finset Address
  trusted_address_slots : Finset (Address × U256)
  computational_gas_limit : Nat

/-- `ValidationTracer::new`. -/
def ValidationTracer.new (storage : Address → H256 → H256)
    (params : ValidationTracerParams) : ValidationTracer where
  storage := storage
  validation_error := none
  validation_mode := .NoValidation
  auxilary_allowed_slots := ∅
  should_stop_execution := false
  user_address := params.user_address
  paymaster_address := params.paymaster_address
  trusted_slots := params.trusted_slots
  trusted_addresses := params.trusted_addresses
  trusted_address_slots := params.trusted_address_slots
  computational_gas_used := 0
  computational_gas_limit := params.computational_gas_limit

/-- `touches_allowed_context` from the source. -/
def touches_allowed_context (address : Address) (key : U256) : Bool :=
  if address ≠ SYSTEM_CONTEXT_ADDRESS then false
  else key == 0

/-- `is_constant_code_hash` from the source (the storage handle appears as
its read function). -/
def is_constant_code_hash (address : Address) (key : U256)
    (storage : Address → H256 → H256) : Bool :=
  if address ≠ ACCOUNT_CODE_STORAGE_ADDRESS then false
  else storage address (u256_to_h256 key) != 0

/-- `valid_eth_token_call` from the source. -/
def valid_eth_token_call (address msg_sender : Address) : Bool :=
  let is_valid_caller := msg_sender == MSG_VALUE_SIMULATOR_ADDRESS
    || msg_sender == CONTRACT_DEPLOYER_ADDRESS
    || msg_sender == BOOTLOADER_ADDRESS
  address == L2_ETH_TOKEN_ADDRESS && is_valid_caller

/-- `ValidationTracer::process_validation_round_result`. -/
def ValidationTracer.process_validation_round_result (self : ValidationTracer)
    (result : ValidationRoundResult) : ValidationTracer :=
  match result with
  | .ok items =>
    let aux := self.auxilary_allowed_slots ∪ items.new_allowed_slots.toFinset
    let addrs := self.trusted_addresses ∪ items.new_trusted_addresses.toFinset
    { self with auxilary_allowed_slots := aux, trusted_addresses := addrs }
  | .error err => { self with validation_error := some err }

/-- `ValidationTracer::is_allowed_storage_read`. -/
def ValidationTracer.is_allowed_storage_read (self : ValidationTracer)
    (address : Address) (key : U256) (msg_sender : Address) : Bool :=
  match self.validation_mode with
  | .NoValidation => true
  | .PaymasterTxValidation => true
  | .UserTxValidation =>
    if valid_eth_token_call address msg_sender then true
    else if (address, key) ∈ self.trusted_slots
        ∨ address ∈ self.trusted_addresses
        ∨ (address, key) ∈ self.trusted_address_slots then true
    else if touches_allowed_context address key then true
    else if address = self.user_address
        ∨ u256_to_account_address key = self.user_address
        ∨ u256_to_h256 key ∈ self.auxilary_allowed_slots then true
    else if is_constant_code_hash address key self.storage then true
    else false

/-- `ValidationTracer::slot_to_add_from_keccak_call`.  The keccak-256 hash
is an external collaborator, passed as the function `keccak`; the source
asserts the calldata is exactly 64 bytes (its only call site reads exactly
64 bytes from memory). -/
def ValidationTracer.slot_to_add_from_keccak_call (self : ValidationTracer)
    (keccak : List Nat → Nat) (calldata : List Nat)
    (validated_address : Address) : Option H256 :=
  if be_bytes_to_safe_address (calldata.take 32) = some validated_address
      ∨ beBytesToNat (calldata.drop 32) ∈ self.auxilary_allowed_slots then
    some (keccak calldata)
  else
    none

/-- The per-instruction observation handed to the tracer: the decoded
opcode and its two source operands (`BeforeExecutionData`), the call-stack
top of the machine-state snapshot (`VmLocalStateData`), the 64 bytes the
paged-memory accessor returns for the far-call region resolved by
`get_calldata_page_via_abi` (the page arithmetic itself is an external
memory-layout concern), the value of the external cost estimate
`computational_gas_price(state, data)`, and the hook the external
classifier `VmHook::from_opcode_memory` reports for this instruction. -/
structure ExecData where
  opcode : Opcode
  src0 : U256
  src1 : U256
  this_address : Address
  msg_sender : Address
  calldata : List Nat
  cost : Nat
  hook : VmHook

/-- `ValidationTracer::check_user_restrictions`.  The receiver is `&mut
self` in the source, so the embedding threads the tracer state and returns
it next to the `ValidationRoundResult`; each Rust `return` point appears
as a branch returning the (unchanged) state paired with the result. -/
def ValidationTracer.check_user_restrictions (self : ValidationTracer)
    (keccak : List Nat → Nat) (data : ExecData) :
    ValidationTracer × ValidationRoundResult :=
  if self.computational_gas_limit < self.computational_gas_used then
    (self, .error (.TookTooManyComputationalGas self.computational_gas_limit))
  else
    match data.opcode with
    | .FarCall =>
      if u256_to_account_address data.src1 = KECCAK256_PRECOMPILE_ADDRESS
          ∧ fatPointerLength data.src0 = 64 then
        match self.slot_to_add_from_keccak_call keccak data.calldata
            self.user_address with
        | some slot => (self, .ok { new_allowed_slots := [slot] })
        | none => (self, .ok {})
      else
        if u256_to_account_address data.src1 ≠ self.user_address then
          if self.storage ACCOUNT_CODE_STORAGE_ADDRESS
              (address_to_h256 (u256_to_account_address data.src1)) = 0 then
            (self, .error (.CalledContractWithNoCode
              (u256_to_account_address data.src1)))
          else
            (self, .ok {})
        else
          (self, .ok {})
    | .Context c =>
      match c with
      | .Meta => (self, .error .TouchedUnallowedContext)
      | .ErgsLeft => (self, .ok {})
      | .OtherContext => (self, .ok {})
    | .Log l =>
      match l with
      | .StorageRead =>
        if !(self.is_allowed_storage_read data.this_address data.src0
            data.msg_sender) then
          (self, .error (.TouchedUnallowedStorageSlots data.this_address
            data.src0))
        else if (data.this_address, data.src0) ∈ self.trusted_address_slots then
          (self, .ok { new_trusted_addresses := [h256_to_account_address
            (self.storage data.this_address (u256_to_h256 data.src0))] })
        else
          (self, .ok {})
      | .OtherLog => (self, .ok {})
    | .Other => (self, .ok {})

/-- The first half of `Tracer::before_execution`: while the mode is
`UserTxValidation`, add the instruction's estimated cost to the gas
counter (saturating), run `check_user_restrictions` and merge its outcome
with `process_validation_round_result`; in every other mode do nothing. -/
def ValidationTracer.validationRound (self : ValidationTracer)
    (keccak : List Nat → Nat) (data : ExecData) : ValidationTracer :=
  match self.validation_mode with
  | .UserTxValidation =>
    let g := saturatingAddU32 self.computational_gas_used data.cost
    let t0 := { self with computational_gas_used := g }
    let round := t0.check_user_restrictions keccak data
    round.1.process_validation_round_result round.2
  | _ => self

/-- The second half of `Tracer::before_execution`: the match on
`(current_mode, hook)`.  The `panic!` on an illegal nested validation
entry is embedded as `none` (an unrecoverable abort producing no successor
state); every non-panicking branch yields `some` successor state. -/
def ValidationTracer.applyHook (self : ValidationTracer) (hook : VmHook) :
    Option ValidationTracer :=
  match self.validation_mode, hook with
  | .NoValidation, .AccountValidationEntered =>
    some { self with validation_mode := .UserTxValidation }
  | .NoValidation, .PaymasterValidationEntered =>
    some { self with validation_mode := .PaymasterTxValidation }
  | _, .AccountValidationEntered => none
  | _, .PaymasterValidationEntered => none
  | _, .NoValidationEntered =>
    some { self with validation_mode := .NoValidation }
  | _, .ValidationStepEndeded =>
    some { self with should_stop_execution := true }
  | _, _ => some self

/-- `Tracer::before_execution` for the validation tracer: the validation
round (gas accounting, rule check, outcome merge) followed by the
lifecycle-hook match.  `none` is the embedded `panic!`. -/
def ValidationTracer.before_execution (self : ValidationTracer)
    (keccak : List Nat → Nat) (data : ExecData) : Option ValidationTracer :=
  (self.validationRound keccak data).applyHook data.hook

/-- `ExecutionEndTracer::should_stop_execution` for the validation
tracer. -/
def ExecutionEndTracer.should_stop_execution (self : ValidationTracer) : Bool :=
  self.should_stop_execution || self.validation_error.isSome

/-- Driving one tracer instance through a sequence of per-instruction
evaluations; `none` once any step aborts. -/
def ValidationTracer.run (self : ValidationTracer)
    (keccak : List Nat → Nat) : List ExecData → Option ValidationTracer
  | [] => some self
  | d :: ds =>
    match self.before_execution keccak d with
    | none => none
    | some t1 => t1.run keccak ds

/-- A tracer state shared by the concrete test scenarios: empty storage. -/
def zeroStorage : Address → H256 → H256 := fun _ _ => 0

/-! ### Helper lemmas -/

theorem check_fst (t : ValidationTracer) (k : List Nat → Nat) (d : ExecData) :
    (t.check_user_restrictions k d).1 = t := by
  unfold ValidationTracer.check_user_restrictions
  repeat' split <;> try rfl

theorem process_mode (t : ValidationTracer) (r : ValidationRoundResult) :
    (t.process_validation_round_result r).validation_mode = t.validation_mode := by
  cases r <;> rfl

theorem process_used (t : ValidationTracer) (r : ValidationRoundResult) :
    (t.process_validation_round_result r).computational_gas_used =
      t.computational_gas_used := by
  cases r <;> rfl

theorem process_limit (t : ValidationTracer) (r : ValidationRoundResult) :
    (t.process_validation_round_result r).computational_gas_limit =
      t.computational_gas_limit := by
  cases r <;> rfl

theorem le_saturatingAddU32 (a b : Nat) (h : a < 2 ^ 32) :
    a ≤ saturatingAddU32 a b := by
  unfold saturatingAddU32
  omega

theorem saturatingAddU32_lt (a b : Nat) : saturatingAddU32 a b < 2 ^ 32 := by
  unfold saturatingAddU32
  omega

theorem validationRound_mode (t : ValidationTracer) (k : List Nat → Nat)
    (d : ExecData) :
    (t.validationRound k d).validation_mode = t.validation_mode := by
  unfold ValidationTracer.validationRound
  split
  · simp [process_mode, check_fst]
  · rfl

theorem validationRound_limit (t : ValidationTracer) (k : List Nat → Nat)
    (d : ExecData) :
    (t.validationRound k d).computational_gas_limit =
      t.computational_gas_limit := by
  unfold ValidationTracer.validationRound
  split
  · simp [process_limit, check_fst]
  · rfl

theorem validationRound_used_bounds (t : ValidationTracer) (k : List Nat → Nat)
    (d : ExecData) (hwf : t.computational_gas_used < 2 ^ 32) :
    t.computational_gas_used ≤ (t.validationRound k d).computational_gas_used ∧
      (t.validationRound k d).computational_gas_used < 2 ^ 32 := by
  unfold ValidationTracer.validationRound
  split
  · simp only [process_used, check_fst]
    exact ⟨le_saturatingAddU32 _ _ hwf, saturatingAddU32_lt _ _⟩
  · exact ⟨Nat.le_refl _, hwf⟩

theorem applyHook_gas (t : ValidationTracer) (h : VmHook)
    (t' : ValidationTracer) (heq : t.applyHook h = some t') :
    t'.computational_gas_used = t.computational_gas_used ∧
      t'.computational_gas_limit = t.computational_gas_limit := by
  unfold ValidationTracer.applyHook at heq
  split at heq <;> cases heq <;> exact ⟨rfl, rfl⟩

theorem check_over_budget (x : ValidationTracer) (k : List Nat → Nat)
    (d : ExecData)
    (hx : x.computational_gas_limit < x.computational_gas_used) :
    x.check_user_restrictions k d =
      (x, .error (.TookTooManyComputationalGas x.computational_gas_limit)) := by
  unfold ValidationTracer.check_user_restrictions
  exact if_pos hx

theorem validationRound_eq_of_noValidation (t : ValidationTracer)
    (k : List Nat → Nat) (d : ExecData)
    (h : t.validation_mode = .NoValidation) : t.validationRound k d = t := by
  unfold ValidationTracer.validationRound
  rw [h]

theorem applyHook_nested_entry_aborts (x : ValidationTracer)
    (h : x.validation_mode ≠ .NoValidation) :
    x.applyHook .AccountValidationEntered = none ∧
      x.applyHook .PaymasterValidationEntered = none := by
  unfold ValidationTracer.applyHook
  cases hm : x.validation_mode <;> simp_all

theorem applyHook_noValidationEntered (x : ValidationTracer) :
    x.applyHook .NoValidationEntered =
      some { x with validation_mode := .NoValidation } := by
  unfold ValidationTracer.applyHook
  cases hm : x.validation_mode <;> rfl

/-! ### Claim C1 -/

/-- A tracer in user validation with a violation already latched. -/
def tC1 : ValidationTracer :=
  { ValidationTracer.new zeroStorage
      { user_address := 1, paymaster_address := 9, trusted_slots := ∅,
        trusted_addresses := ∅, trusted_address_slots := ∅,
        computational_gas_limit := 10 } with
    validation_mode := .UserTxValidation,
    validation_error := some .TouchedUnallowedContext }

/-- Claim C1 counterexample: with `TouchedUnallowedContext` already latched,
merging a later `Err(CalledContractWithNoCode(5))` through
`process_validation_round_result` replaces the latched violation — the
originally latched violation does not survive, so the first violation does
not win. -/
theorem C1_counterexample :
    tC1.validation_error = some .TouchedUnallowedContext ∧
    (tC1.process_validation_round_result
        (.error (.CalledContractWithNoCode 5))).validation_error =
      some (.CalledContractWithNoCode 5) ∧
    (tC1.process_validation_round_result
        (.error (.CalledContractWithNoCode 5))).validation_error ≠
      some .TouchedUnallowedContext := by
  refine ⟨rfl, rfl, ?_⟩
  decide

/-- Claim C1 (amended): merging a later `Err` outcome through
`process_validation_round_result` always overwrites the stored violation
with the new one — the last violation observed wins, regardless of what
was latched before. -/
theorem C1_amended_last_violation_wins (t : ValidationTracer)
    (e : ViolatedValidationRule) :
    (t.process_validation_round_result (.error e)).validation_error =
      some e := rfl

/-! ### Claim C2 -/

/-- A tracer with a latched violation and the stop flag never set. -/
def tC2 : ValidationTracer :=
  { ValidationTracer.new zeroStorage
      { user_address := 0xAA, paymaster_address := 9, trusted_slots := ∅,
        trusted_addresses := ∅, trusted_address_slots := ∅,
        computational_gas_limit := 1000 } with
    validation_mode := .UserTxValidation,
    validation_error := some (.TouchedUnallowedStorageSlots 0xBB 7) }

/-- Claim C2 counterexample: with `TouchedUnallowedStorageSlots(0xBB, 7)`
latched and the stop-request flag still `false`,
`should_stop_execution()` returns `true`, not `false`: a latched violation
alone already makes it stop. -/
theorem C2_counterexample :
    tC2.should_stop_execution = false ∧
    tC2.validation_error = some (.TouchedUnallowedStorageSlots 0xBB 7) ∧
    ExecutionEndTracer.should_stop_execution tC2 = true :=
  ⟨rfl, rfl, rfl⟩

/-- Claim C2 (amended): a latched violation alone, even with the
stop-request flag never set, makes `should_stop_execution()` return
`true` (it returns the disjunction of the stop flag and the presence of a
latched violation). -/
theorem C2_amended_latched_violation_stops (t : ValidationTracer)
    (h : t.validation_error.isSome = true) :
    ExecutionEndTracer.should_stop_execution t = true := by
  unfold ExecutionEndTracer.should_stop_execution
  simp [h]

/-- Witness for the amended claim C2 at the concrete tracer `tC2`. -/
theorem C2_amended_witness :
    tC2.validation_error.isSome = true ∧
    ExecutionEndTracer.should_stop_execution tC2 = true :=
  ⟨rfl, C2_amended_latched_violation_stops tC2 rfl⟩

/-! ### Claim C7 -/

/-- Claim C7: the gas counter never decreases across an evaluation (the
saturating `u32` addition never wraps: it stays below `2^32`), the limit
is fixed, and once `used` exceeds `limit` every evaluation of
`check_user_restrictions` on that tracer returns
`Err(TookTooManyComputationalGas(limit))` regardless of the opcode in
`d`. -/
theorem C7_budget_monotone_and_latched (t : ValidationTracer)
    (keccak : List Nat → Nat) (d : ExecData) (t' : ValidationTracer)
    (hwf : t.computational_gas_used < 2 ^ 32) :
    (t.before_execution keccak d = some t' →
      t.computational_gas_used ≤ t'.computational_gas_used ∧
      t'.computational_gas_used < 2 ^ 32 ∧
      t'.computational_gas_limit = t.computational_gas_limit) ∧
    (t.computational_gas_limit < t.computational_gas_used →
      (t.check_user_restrictions keccak d).2 =
        .error (.TookTooManyComputationalGas t.computational_gas_limit)) := by
  constructor
  · intro heq
    unfold ValidationTracer.before_execution at heq
    obtain ⟨hu, hl⟩ := applyHook_gas _ _ _ heq
    obtain ⟨hmono, hwf'⟩ := validationRound_used_bounds t keccak d hwf
    refine ⟨?_, ?_, ?_⟩
    · rw [hu]; exact hmono
    · rw [hu]; exact hwf'
    · rw [hl]; exact validationRound_limit t keccak d
  · intro h
    unfold ValidationTracer.check_user_restrictions
    rw [if_pos h]

/-- An over-budget tracer: `used = 5` already exceeds `limit = 3`. -/
def tC7 : ValidationTracer :=
  { ValidationTracer.new zeroStorage
      { user_address := 1, paymaster_address := 9, trusted_slots := ∅,
        trusted_addresses := ∅, trusted_address_slots := ∅,
        computational_gas_limit := 3 } with
    validation_mode := .UserTxValidation,
    computational_gas_used := 5 }

/-- A far-call instruction observation used by the C7 witness. -/
def dC7 : ExecData :=
  { opcode := .FarCall, src0 := 0, src1 := 2, this_address := 0,
    msg_sender := 0, calldata := [], cost := 1, hook := .OtherHook }

/-- Witness for claim C7 at a concrete over-budget tracer. -/
theorem C7_witness :
    tC7.computational_gas_used < 2 ^ 32 ∧
    tC7.computational_gas_limit < tC7.computational_gas_used ∧
    (tC7.check_user_restrictions (fun _ => 0) dC7).2 =
      .error (.TookTooManyComputationalGas tC7.computational_gas_limit) :=
  ⟨by decide, by decide,
    (C7_budget_monotone_and_latched tC7 (fun _ => 0) dC7 tC7
      (by decide)).2 (by decide)⟩

/-! ### Claim C3 -/

/-- A user-validation tracer over empty storage (every code hash is the
zero word), user address 1. -/
def tC3 : ValidationTracer :=
  { ValidationTracer.new zeroStorage
      { user_address := 1, paymaster_address := 9, trusted_slots := ∅,
        trusted_addresses := ∅, trusted_address_slots := ∅,
        computational_gas_limit := 1000 } with
    validation_mode := .UserTxValidation }

/-- A far call whose destination is the keccak-256 precompile and whose
forwarded-memory descriptor has length exactly 64. -/
def dC3 : ExecData :=
  { opcode := .FarCall, src0 := 64 * 2 ^ 96, src1 := 0x8010,
    this_address := 0, msg_sender := 0, calldata := List.replicate 64 0,
    cost := 0, hook := .OtherHook }

/-- Claim C3 counterexample: a far call during user validation to the
keccak-256 precompile (whose stored code hash here is the zero word, and
which is not the user address) with a 64-byte forwarded-memory descriptor
is routed to the keccak-call interpreter and yields `Ok` — not
`Err(CalledContractWithNoCode)` — so the claim's "for all destinations and
all forwarded-memory descriptors, without exception" fails. -/
theorem C3_counterexample :
    tC3.validation_mode = .UserTxValidation ∧
    u256_to_account_address dC3.src1 ≠ tC3.user_address ∧
    tC3.storage ACCOUNT_CODE_STORAGE_ADDRESS
      (address_to_h256 (u256_to_account_address dC3.src1)) = 0 ∧
    (tC3.check_user_restrictions (fun _ => 0) dC3).2 = .ok {} :=
  ⟨rfl, by decide, rfl, by rfl⟩

/-- Claim C3 (amended): for every far call evaluated during user
validation whose destination is not the user address and whose stored
code hash is the zero word, the evaluation yields
`Err(CalledContractWithNoCode(destination))` — provided the computational
budget is not already exceeded and the call is not the keccak-precompile
special case (destination the keccak-256 precompile with a 64-byte
forwarded-memory descriptor), which is intercepted first. -/
theorem C3_amended_no_code_call (t : ValidationTracer) (k : List Nat → Nat)
    (d : ExecData)
    (_hmode : t.validation_mode = .UserTxValidation)
    (hgas : t.computational_gas_used ≤ t.computational_gas_limit)
    (hop : d.opcode = .FarCall)
    (hnk : ¬(u256_to_account_address d.src1 = KECCAK256_PRECOMPILE_ADDRESS
      ∧ fatPointerLength d.src0 = 64))
    (hne : u256_to_account_address d.src1 ≠ t.user_address)
    (hcode : t.storage ACCOUNT_CODE_STORAGE_ADDRESS
      (address_to_h256 (u256_to_account_address d.src1)) = 0) :
    (t.check_user_restrictions k d).2 =
      .error (.CalledContractWithNoCode (u256_to_account_address d.src1)) := by
  unfold ValidationTracer.check_user_restrictions
  rw [if_neg (Nat.not_lt.mpr hgas)]
  simp only [hop]
  rw [if_neg hnk, if_pos hne, if_pos hcode]

/-- A far call to the codeless address 2 with an empty descriptor. -/
def dC3w : ExecData :=
  { opcode := .FarCall, src0 := 0, src1 := 2, this_address := 0,
    msg_sender := 0, calldata := [], cost := 0, hook := .OtherHook }

/-- Witness for the amended claim C3 at a concrete codeless far call. -/
theorem C3_amended_witness :
    tC3.validation_mode = .UserTxValidation ∧
    tC3.computational_gas_used ≤ tC3.computational_gas_limit ∧
    dC3w.opcode = .FarCall ∧
    ¬(u256_to_account_address dC3w.src1 = KECCAK256_PRECOMPILE_ADDRESS
      ∧ fatPointerLength dC3w.src0 = 64) ∧
    u256_to_account_address dC3w.src1 ≠ tC3.user_address ∧
    tC3.storage ACCOUNT_CODE_STORAGE_ADDRESS
      (address_to_h256 (u256_to_account_address dC3w.src1)) = 0 ∧
    (tC3.check_user_restrictions (fun _ => 0) dC3w).2 =
      .error (.CalledContractWithNoCode (u256_to_account_address dC3w.src1)) :=
  ⟨rfl, by decide, rfl, by decide, by decide, rfl,
    C3_amended_no_code_call tC3 (fun _ => 0) dC3w rfl (by decide) rfl
      (by decide) (by decide) rfl⟩

/-! ### Claim C4 -/

/-- A user-validation tracer with `used = 0` and `limit = 10`. -/
def tC4 : ValidationTracer :=
  { ValidationTracer.new zeroStorage
      { user_address := 1, paymaster_address := 9, trusted_slots := ∅,
        trusted_addresses := ∅, trusted_address_slots := ∅,
        computational_gas_limit := 10 } with
    validation_mode := .UserTxValidation }

/-- An instruction with estimated computational cost 11 and no hook. -/
def dC4 : ExecData :=
  { opcode := .Other, src0 := 0, src1 := 0, this_address := 0,
    msg_sender := 0, calldata := [], cost := 11, hook := .OtherHook }

/-- Claim C4 counterexample: with prior gas 0 and limit 10 — so no gas was
accumulated by prior instructions — evaluating a single instruction of
cost 11 latches `TookTooManyComputationalGas(10)`: the cost of the current
instruction is added to `used` before the budget check, contradicting the
claim that the check is performed first and reflects prior instructions
only. -/
theorem C4_counterexample :
    tC4.computational_gas_used ≤ tC4.computational_gas_limit ∧
    tC4.validation_error = none ∧
    tC4.validation_mode = .UserTxValidation ∧
    Option.map ValidationTracer.validation_error
        (tC4.before_execution (fun _ => 0) dC4) =
      some (some (.TookTooManyComputationalGas 10)) :=
  ⟨by decide, rfl, rfl, by rfl⟩

/-- Claim C4 (amended): during user validation the instruction's estimated
cost is added to `used` (saturating) before the budget check runs, so an
evaluation latches `TookTooManyComputationalGas(limit)` whenever the gas
accumulated including the current instruction's own cost exceeds the
limit. -/
theorem C4_amended_cost_added_before_check (t : ValidationTracer)
    (k : List Nat → Nat) (d : ExecData)
    (h1 : t.validation_mode = .UserTxValidation)
    (h2 : t.computational_gas_limit <
      saturatingAddU32 t.computational_gas_used d.cost)
    (h3 : d.hook = .OtherHook) :
    Option.map ValidationTracer.validation_error (t.before_execution k d) =
      some (some (.TookTooManyComputationalGas t.computational_gas_limit)) := by
  simp only [ValidationTracer.before_execution,
    ValidationTracer.validationRound, h1]
  rw [check_over_budget _ k d (by simpa using h2)]
  simp [ValidationTracer.process_validation_round_result,
    ValidationTracer.applyHook, h3]

/-- Witness for the amended claim C4 at the concrete cost-11 step. -/
theorem C4_amended_witness :
    tC4.validation_mode = .UserTxValidation ∧
    tC4.computational_gas_limit <
      saturatingAddU32 tC4.computational_gas_used dC4.cost ∧
    dC4.hook = .OtherHook ∧
    Option.map ValidationTracer.validation_error
        (tC4.before_execution (fun _ => 0) dC4) =
      some (some (.TookTooManyComputationalGas tC4.computational_gas_limit)) :=
  ⟨rfl, by decide, rfl,
    C4_amended_cost_added_before_check tC4 (fun _ => 0) dC4 rfl
      (by decide) rfl⟩

/-! ### Claim C8 -/

/-- Claim C8: receiving `AccountValidationEntered` or
`PaymasterValidationEntered` while the phase is not `NoValidation` aborts
(the embedded `panic!` yields `none`, never a latched `ViolatedRule`);
from `NoValidation` those hooks move the phase to `UserTxValidation` and
`PaymasterTxValidation` respectively, and `NoValidationEntered` returns
the phase to `NoValidation` from any state. -/
theorem C8_hook_transitions (t : ValidationTracer) (keccak : List Nat → Nat)
    (d : ExecData) :
    ((d.hook = .AccountValidationEntered
        ∨ d.hook = .PaymasterValidationEntered) →
      t.validation_mode ≠ .NoValidation →
      t.before_execution keccak d = none) ∧
    (t.validation_mode = .NoValidation →
      d.hook = .AccountValidationEntered →
      t.before_execution keccak d =
        some { t with validation_mode := .UserTxValidation }) ∧
    (t.validation_mode = .NoValidation →
      d.hook = .PaymasterValidationEntered →
      t.before_execution keccak d =
        some { t with validation_mode := .PaymasterTxValidation }) ∧
    (d.hook = .NoValidationEntered →
      Option.map ValidationTracer.validation_mode
        (t.before_execution keccak d) = some .NoValidation) := by
  refine ⟨?_, ?_, ?_, ?_⟩
  · intro hh hm
    unfold ValidationTracer.before_execution
    have hmode : (t.validationRound keccak d).validation_mode ≠ .NoValidation := by
      rw [validationRound_mode]
      exact hm
    rcases hh with h | h <;> rw [h]
    · exact (applyHook_nested_entry_aborts _ hmode).1
    · exact (applyHook_nested_entry_aborts _ hmode).2
  · intro hm hh
    unfold ValidationTracer.before_execution
    rw [validationRound_eq_of_noValidation t keccak d hm, hh]
    unfold ValidationTracer.applyHook
    rw [hm]
  · intro hm hh
    unfold ValidationTracer.before_execution
    rw [validationRound_eq_of_noValidation t keccak d hm, hh]
    unfold ValidationTracer.applyHook
    rw [hm]
  · intro hh
    unfold ValidationTracer.before_execution
    rw [hh, applyHook_noValidationEntered]
    rfl

/-- A tracer already inside user validation. -/
def tC8 : ValidationTracer :=
  { ValidationTracer.new zeroStorage
      { user_address := 1, paymaster_address := 9, trusted_slots := ∅,
        trusted_addresses := ∅, trusted_address_slots := ∅,
        computational_gas_limit := 1000 } with
    validation_mode := .UserTxValidation }

/-- An instruction carrying a nested `AccountValidationEntered` hook. -/
def dC8 : ExecData :=
  { opcode := .Other, src0 := 0, src1 := 0, this_address := 0,
    msg_sender := 0, calldata := [], cost := 0,
    hook := .AccountValidationEntered }

/-- Witness for claim C8: a nested account-validation entry aborts. -/
theorem C8_witness :
    tC8.validation_mode ≠ .NoValidation ∧
    tC8.before_execution (fun _ => 0) dC8 = none :=
  ⟨by decide,
    (C8_hook_transitions tC8 (fun _ => 0) dC8).1 (Or.inl rfl) (by decide)⟩

/-! ### Claim C5 -/

theorem touches_allowed_context_iff (a : Address) (kk : U256) :
    touches_allowed_context a kk = true ↔
      a = SYSTEM_CONTEXT_ADDRESS ∧ kk = 0 := by
  unfold touches_allowed_context
  split <;> simp_all

theorem is_constant_code_hash_iff (a : Address) (kk : U256)
    (storage : Address → H256 → H256) :
    is_constant_code_hash a kk storage = true ↔
      a = ACCOUNT_CODE_STORAGE_ADDRESS ∧
        storage ACCOUNT_CODE_STORAGE_ADDRESS (u256_to_h256 kk) ≠ 0 := by
  unfold is_constant_code_hash
  split <;> simp_all

/-- Claim C5: during user validation, `is_allowed_storage_read` returns
`true` exactly when one of the listed conditions holds (value-transfer
simulator pattern, the three trust sets, the system-context slot 0, the
user's own address / key-as-address / auxiliary slots, or the
account-code-storage probe with non-zero stored value); outside user
validation it always returns `true`; and a disallowed storage read
evaluates to `Err(TouchedUnallowedStorageSlots(address, key))`. -/
theorem C5_storage_read_policy (t : ValidationTracer) (a : Address)
    (kk : U256) (ms : Address) (keccak : List Nat → Nat) (d : ExecData) :
    (t.validation_mode = .UserTxValidation →
      (t.is_allowed_storage_read a kk ms = true ↔
        (valid_eth_token_call a ms = true ∨
         (a, kk) ∈ t.trusted_slots ∨
         a ∈ t.trusted_addresses ∨
         (a, kk) ∈ t.trusted_address_slots ∨
         (a = SYSTEM_CONTEXT_ADDRESS ∧ kk = 0) ∨
         a = t.user_address ∨
         u256_to_account_address kk = t.user_address ∨
         u256_to_h256 kk ∈ t.auxilary_allowed_slots ∨
         (a = ACCOUNT_CODE_STORAGE_ADDRESS ∧
           t.storage ACCOUNT_CODE_STORAGE_ADDRESS (u256_to_h256 kk) ≠ 0)))) ∧
    (t.validation_mode ≠ .UserTxValidation →
      t.is_allowed_storage_read a kk ms = true) ∧
    (t.computational_gas_used ≤ t.computational_gas_limit →
      d.opcode = .Log .StorageRead →
      t.is_allowed_storage_read d.this_address d.src0 d.msg_sender = false →
      (t.check_user_restrictions keccak d).2 =
        .error (.TouchedUnallowedStorageSlots d.this_address d.src0)) := by
  refine ⟨?_, ?_, ?_⟩
  · intro hm
    unfold ValidationTracer.is_allowed_storage_read
    rw [hm]
    split_ifs with h1 h2 h3 h4 h5 <;>
      simp_all [touches_allowed_context_iff, is_constant_code_hash_iff] <;>
      tauto
  · intro hm
    unfold ValidationTracer.is_allowed_storage_read
    cases hmode : t.validation_mode <;> simp_all
  · intro hgas hop hfalse
    unfold ValidationTracer.check_user_restrictions
    rw [if_neg (Nat.not_lt.mpr hgas)]
    simp only [hop, hfalse]
    simp

/-- A user-validation tracer with empty trust sets, user address 1. -/
def tC5 : ValidationTracer :=
  { ValidationTracer.new zeroStorage
      { user_address := 1, paymaster_address := 9, trusted_slots := ∅,
        trusted_addresses := ∅, trusted_address_slots := ∅,
        computational_gas_limit := 1000 } with
    validation_mode := .UserTxValidation }

/-- A storage read at (address 2, key 7) from caller 3 — no trust
relationship with any rule. -/
def dC5 : ExecData :=
  { opcode := .Log .StorageRead, src0 := 7, src1 := 0, this_address := 2,
    msg_sender := 3, calldata := [], cost := 0, hook := .OtherHook }

/-- Witness for claim C5: the concrete untrusted storage read yields the
`TouchedUnallowedStorageSlots` violation. -/
theorem C5_witness :
    tC5.computational_gas_used ≤ tC5.computational_gas_limit ∧
    dC5.opcode = .Log .StorageRead ∧
    tC5.is_allowed_storage_read dC5.this_address dC5.src0 dC5.msg_sender
      = false ∧
    (tC5.check_user_restrictions (fun _ => 0) dC5).2 =
      .error (.TouchedUnallowedStorageSlots dC5.this_address dC5.src0) :=
  ⟨by decide, rfl, by decide,
    (C5_storage_read_policy tC5 0 0 0 (fun _ => 0) dC5).2.2 (by decide) rfl
      (by decide)⟩

/-! ### Claim C6 -/

/-- Claim C6: for a 64-byte keccak-call input, the interpreter returns
`Some(keccak256(input))` exactly when the first 32 bytes safely decode to
the user's address or the last 32 bytes are already in the auxiliary
allowed slots, and `None` otherwise; in particular a sub-key already in
the auxiliary set yields a new trusted slot for any first word. -/
theorem C6_keccak_interpreter (t : ValidationTracer)
    (keccak : List Nat → Nat) (cd : List Nat) (_hlen : cd.length = 64) :
    (t.slot_to_add_from_keccak_call keccak cd t.user_address =
        some (keccak cd) ↔
      (be_bytes_to_safe_address (cd.take 32) = some t.user_address ∨
        beBytesToNat (cd.drop 32) ∈ t.auxilary_allowed_slots)) ∧
    (¬(be_bytes_to_safe_address (cd.take 32) = some t.user_address ∨
        beBytesToNat (cd.drop 32) ∈ t.auxilary_allowed_slots) →
      t.slot_to_add_from_keccak_call keccak cd t.user_address = none) ∧
    (beBytesToNat (cd.drop 32) ∈ t.auxilary_allowed_slots →
      t.slot_to_add_from_keccak_call keccak cd t.user_address =
        some (keccak cd)) := by
  refine ⟨?_, ?_, ?_⟩
  · unfold ValidationTracer.slot_to_add_from_keccak_call
    split <;> simp_all
  · intro hn
    unfold ValidationTracer.slot_to_add_from_keccak_call
    rw [if_neg hn]
  · intro hmem
    unfold ValidationTracer.slot_to_add_from_keccak_call
    rw [if_pos (Or.inr hmem)]

/-- A tracer whose user address is 1 and whose auxiliary set is empty. -/
def tC6 : ValidationTracer :=
  { ValidationTracer.new zeroStorage
      { user_address := 1, paymaster_address := 9, trusted_slots := ∅,
        trusted_addresses := ∅, trusted_address_slots := ∅,
        computational_gas_limit := 1000 } with
    validation_mode := .UserTxValidation }

/-- A 64-byte keccak-call input whose first 32-byte word is the user's
address 1 and whose second word is zero. -/
def cdC6 : List Nat := List.replicate 31 0 ++ [1] ++ List.replicate 32 0

/-- A stand-in hash function for the C6 witness. -/
def kC6 : List Nat → Nat := fun _ => 77

/-- Witness for claim C6 at the concrete 64-byte input carrying the user's
address. -/
theorem C6_witness :
    cdC6.length = 64 ∧
    be_bytes_to_safe_address (cdC6.take 32) = some tC6.user_address ∧
    tC6.slot_to_add_from_keccak_call kC6 cdC6 tC6.user_address =
      some (kC6 cdC6) :=
  ⟨by decide, by decide,
    ((C6_keccak_interpreter tC6 kC6 cdC6 (by decide)).1).mpr
      (Or.inl (by decide))⟩

/-! ### Claim C10 -/

/-! ### Claim C9 -/

/-- Two tracer states that agree on every field except possibly the
`paymaster_address`. -/
def EqExceptPaymaster (t₁ t₂ : ValidationTracer) : Prop :=
  t₁.storage = t₂.storage ∧
  t₁.validation_mode = t₂.validation_mode ∧
  t₁.auxilary_allowed_slots = t₂.auxilary_allowed_slots ∧
  t₁.validation_error = t₂.validation_error ∧
  t₁.user_address = t₂.user_address ∧
  t₁.should_stop_execution = t₂.should_stop_execution ∧
  t₁.trusted_slots = t₂.trusted_slots ∧
  t₁.trusted_addresses = t₂.trusted_addresses ∧
  t₁.trusted_address_slots = t₂.trusted_address_slots ∧
  t₁.computational_gas_used = t₂.computational_gas_used ∧
  t₁.computational_gas_limit = t₂.computational_gas_limit

/-- `EqExceptPaymaster` lifted to evaluation outcomes: aborts line up with
aborts, successor states line up field-wise except the paymaster. -/
def OptEqExceptPaymaster : Option ValidationTracer →
    Option ValidationTracer → Prop
  | none, none => True
  | some a, some b => EqExceptPaymaster a b
  | _, _ => False

theorem is_allowed_congr (t₁ t₂ : ValidationTracer)
    (h : EqExceptPaymaster t₁ t₂) (a : Address) (kk : U256) (ms : Address) :
    t₁.is_allowed_storage_read a kk ms = t₂.is_allowed_storage_read a kk ms := by
  obtain ⟨h1, h2, h3, h4, h5, h6, h7, h8, h9, h10, h11⟩ := h
  unfold ValidationTracer.is_allowed_storage_read
  rw [h1, h2, h3, h5, h7, h8, h9]

theorem slot_to_add_congr (t₁ t₂ : ValidationTracer)
    (h : EqExceptPaymaster t₁ t₂) (k : List Nat → Nat) (cd : List Nat)
    (v : Address) :
    t₁.slot_to_add_from_keccak_call k cd v =
      t₂.slot_to_add_from_keccak_call k cd v := by
  obtain ⟨h1, h2, h3, h4, h5, h6, h7, h8, h9, h10, h11⟩ := h
  unfold ValidationTracer.slot_to_add_from_keccak_call
  rw [h3]

theorem check_snd_congr (t₁ t₂ : ValidationTracer)
    (h : EqExceptPaymaster t₁ t₂) (k : List Nat → Nat) (d : ExecData) :
    (t₁.check_user_restrictions k d).2 = (t₂.check_user_restrictions k d).2 := by
  have hall := is_allowed_congr t₁ t₂ h
  have hslot := slot_to_add_congr t₁ t₂ h
  obtain ⟨h1, h2, h3, h4, h5, h6, h7, h8, h9, h10, h11⟩ := h
  unfold ValidationTracer.check_user_restrictions
  rw [h1, h5, h9, h10, h11, hslot, hall]
  repeat' split <;> try rfl

theorem process_congr (a b : ValidationTracer) (h : EqExceptPaymaster a b)
    (r : ValidationRoundResult) :
    EqExceptPaymaster (a.process_validation_round_result r)
      (b.process_validation_round_result r) := by
  obtain ⟨h1, h2, h3, h4, h5, h6, h7, h8, h9, h10, h11⟩ := h
  cases r with
  | ok items =>
    exact ⟨h1, h2, by simp [ValidationTracer.process_validation_round_result, h3],
      h4, h5, h6, h7,
      by simp [ValidationTracer.process_validation_round_result, h8],
      h9, h10, h11⟩
  | error e =>
    exact ⟨h1, h2, h3, rfl, h5, h6, h7, h8, h9, h10, h11⟩

theorem validationRound_congr (t₁ t₂ : ValidationTracer)
    (h : EqExceptPaymaster t₁ t₂) (k : List Nat → Nat) (d : ExecData) :
    EqExceptPaymaster (t₁.validationRound k d) (t₂.validationRound k d) := by
  have hmode := h.2.1
  have hused := h.2.2.2.2.2.2.2.2.2.1
  unfold ValidationTracer.validationRound
  rw [hmode]
  cases hm : t₂.validation_mode
  case UserTxValidation =>
    have h0 : EqExceptPaymaster
        { t₁ with
            validation_mode := .UserTxValidation,
            computational_gas_used := saturatingAddU32 t₁.computational_gas_used d.cost }
        { t₂ with
            validation_mode := .UserTxValidation,
            computational_gas_used := saturatingAddU32 t₂.computational_gas_used d.cost } := by
      obtain ⟨h1, h2, h3, h4, h5, h6, h7, h8, h9, h10, h11⟩ := h
      exact ⟨h1, rfl, h3, h4, h5, h6, h7, h8, h9, by rw [h10], h11⟩
    simp only [check_fst]
    rw [check_snd_congr _ _ h0 k d]
    exact process_congr _ _ h0 _
  case PaymasterTxValidation => exact h
  case NoValidation => exact h

theorem applyHook_congr (t₁ t₂ : ValidationTracer)
    (h : EqExceptPaymaster t₁ t₂) (hk : VmHook) :
    OptEqExceptPaymaster (t₁.applyHook hk) (t₂.applyHook hk) := by
  have hmode := h.2.1
  obtain ⟨h1, h2, h3, h4, h5, h6, h7, h8, h9, h10, h11⟩ := h
  unfold ValidationTracer.applyHook
  rw [hmode]
  cases hm : t₂.validation_mode <;> cases hk <;>
    first
      | exact trivial
      | exact ⟨h1, by simp [h2, hm], h3, h4, h5, by simp [h6], h7, h8, h9,
          h10, h11⟩

theorem before_execution_congr (t₁ t₂ : ValidationTracer)
    (h : EqExceptPaymaster t₁ t₂) (k : List Nat → Nat) (d : ExecData) :
    OptEqExceptPaymaster (t₁.before_execution k d) (t₂.before_execution k d) :=
  applyHook_congr _ _ (validationRound_congr t₁ t₂ h k d) d.hook

theorem run_congr (k : List Nat → Nat) (ds : List ExecData) :
    ∀ t₁ t₂ : ValidationTracer, EqExceptPaymaster t₁ t₂ →
      OptEqExceptPaymaster (t₁.run k ds) (t₂.run k ds) := by
  induction ds with
  | nil => intro t₁ t₂ h; exact h
  | cons d ds ih =>
    intro t₁ t₂ h
    have hb := before_execution_congr t₁ t₂ h k d
    simp only [ValidationTracer.run]
    cases hb₁ : t₁.before_execution k d <;>
      cases hb₂ : t₂.before_execution k d <;> rw [hb₁, hb₂] at hb
    · exact trivial
    · exact hb.elim
    · exact hb.elim
    · exact ih _ _ hb

theorem OptEqExceptPaymaster_should_stop (o₁ o₂ : Option ValidationTracer)
    (h : OptEqExceptPaymaster o₁ o₂) :
    Option.map ExecutionEndTracer.should_stop_execution o₁ =
      Option.map ExecutionEndTracer.should_stop_execution o₂ := by
  cases o₁ <;> cases o₂
  · rfl
  · exact h.elim
  · exact h.elim
  case some.some a b =>
    obtain ⟨h1, h2, h3, h4, h5, h6, h7, h8, h9, h10, h11⟩ := h
    simp only [Option.map, ExecutionEndTracer.should_stop_execution]
    rw [h4, h6]

theorem new_EqExceptPaymaster (storage : Address → H256 → H256)
    (params : ValidationTracerParams) (p₁ p₂ : Address) :
    EqExceptPaymaster
      (ValidationTracer.new storage { params with paymaster_address := p₁ })
      (ValidationTracer.new storage { params with paymaster_address := p₂ }) :=
  ⟨rfl, rfl, rfl, rfl, rfl, rfl, rfl, rfl, rfl, rfl, rfl⟩

/-- Claim C9: two tracers constructed with identical parameters except the
`paymaster_address`, driven through the same sequence of
`before_execution` calls with the same per-instruction observations,
abort together or reach states that agree on every field except the
paymaster address (validation phase, trust sets, auxiliary allowed slots,
gas counters, latched violation, stop flag), and report the same
`should_stop_execution()`. -/
theorem C9_paymaster_independent (storage : Address → H256 → H256)
    (params : ValidationTracerParams) (p₁ p₂ : Address)
    (k : List Nat → Nat) (ds : List ExecData) :
    OptEqExceptPaymaster
      ((ValidationTracer.new storage
        { params with paymaster_address := p₁ }).run k ds)
      ((ValidationTracer.new storage
        { params with paymaster_address := p₂ }).run k ds) ∧
    Option.map ExecutionEndTracer.should_stop_execution
        ((ValidationTracer.new storage
          { params with paymaster_address := p₁ }).run k ds) =
      Option.map ExecutionEndTracer.should_stop_execution
        ((ValidationTracer.new storage
          { params with paymaster_address := p₂ }).run k ds) := by
  have hrun := run_congr k ds _ _ (new_EqExceptPaymaster storage params p₁ p₂)
  exact ⟨hrun, OptEqExceptPaymaster_should_stop _ _ hrun⟩

/-! ### Claim C10 -/

/-- Claim C10: `check_user_restrictions` mutates no field of the tracer —
the returned tracer state (`validation_mode`, `trusted_slots`,
`trusted_addresses`, `trusted_address_slots`, `auxilary_allowed_slots`,
`computational_gas_used`, `computational_gas_limit`, `validation_error`,
`should_stop_execution`, addresses, storage handle) is exactly the input
state; the tracer changes only through `process_validation_round_result`,
the gas addition, and the hook handling inside `before_execution`. -/
theorem C10_check_user_restrictions_frame (t : ValidationTracer)
    (keccak : List Nat → Nat) (d : ExecData) :
    (t.check_user_restrictions keccak d).1 = t :=
  check_fst t keccak d

end ZkSync
